import Mathlib

/-!
# Stress dashboard (`static/script.js`): render / poll loop

A shallow embedding of the browser script.  The script keeps three chart
handles (`stressChart`, `tempChart`, `hrChart`) and one text element
(`emojiBox`) in closure variables; here they are the fields of `Page`,
threaded explicitly through every operation.  An operation returns the
exception it raised (if any) together with the page it left behind, so the
mutations made before a `throw` stay visible.

External collaborators are inputs of the model:

* the text that `new Date(x).toLocaleTimeString()` yields is the parameter
  `fmt : JSVal → String` (it depends on locale and time zone); the call itself
  is `formatTime`, which throws when `x` cannot be converted to a primitive
  value (an object with an own `toString` key, or an array reaching one);
* the outcome of `fetch('/data')` and of `response.json()` is a `FetchOutcome`;
* `new Chart(..)` and `chart.update()` are total: they allocate / redraw and
  do not throw.  The four DOM elements looked up at lines 3-6 exist.
-/

namespace StressDashboard

/-! ## Values -/

/-- JavaScript values that can reach the script: the results of `JSON.parse`
(`null`, booleans, numbers, strings, arrays, objects) and `undefined`, which
is what reading a missing property yields.  Numbers are only copied by the
script and compared with `0`, so they are carried as rationals. -/
inductive JSVal where
  | undefined
  | null
  | bool (b : Bool)
  | num (x : Rat)
  | str (s : String)
  | arr (xs : List JSVal)
  | obj (fields : List (String × JSVal))

/-- Exceptions that occur in the script. -/
inductive JSError where
  /-- a `TypeError` raised by the engine -/
  | typeError (msg : String)
  /-- line 124: `new Error("HTTP error! Status: " + response.status)` -/
  | httpError (status : Nat)
  /-- rejection of `response.json()`: the body is not valid JSON -/
  | syntaxError
  /-- rejection of `fetch('/data')`: no response was obtained -/
  | fetchFailed
  deriving DecidableEq, Repr

/-- JavaScript `ToBoolean`: the condition of `!data` and of `stressed ? .. : ..`. -/
def truthy : JSVal → Bool
  | .undefined => false
  | .null => false
  | .bool b => b
  | .num x => !(x == 0)
  | .str s => !(s == "")
  | .arr _ => true
  | .obj _ => true

/-- Length of a string in UTF-16 code units, which is what `.length` counts. -/
def utf16Length (s : String) : Nat :=
  s.data.foldl (fun n c => n + (if c.val < 0x10000 then 1 else 2)) 0

/-- Own property of a parsed object (`undefined` when missing). -/
def lookupOwn (k : String) : List (String × JSVal) → JSVal
  | [] => .undefined
  | (k', v) :: rest => if k' == k then v else lookupOwn k rest

/-- Property read `v.k` for the data properties the script reads
(`length`, `time`, `stressed`, `temp`, `hr`): it throws on `null` and
`undefined`, and yields `undefined` for a property the value does not have. -/
def getProp (v : JSVal) (k : String) : Except JSError JSVal :=
  match v with
  | .undefined =>
      .error (.typeError ("Cannot read properties of undefined (reading '" ++ k ++ "')"))
  | .null =>
      .error (.typeError ("Cannot read properties of null (reading '" ++ k ++ "')"))
  | .bool _ => .ok .undefined
  | .num _ => .ok .undefined
  | .str s => if k == "length" then .ok (.num (utf16Length s)) else .ok .undefined
  | .arr xs => if k == "length" then .ok (.num xs.length) else .ok .undefined
  | .obj fields => .ok (lookupOwn k fields)

/-- Whether a parsed object has the own key `k`. -/
def hasOwn (k : String) : List (String × JSVal) → Bool
  | [] => false
  | (k', _) :: rest => k' == k || hasOwn k rest

mutual
/-- Whether converting a value to a primitive (to a string, for the
values at hand) throws.  A parsed object converts through the inherited
`Object.prototype.toString` unless an own `toString` key shadows it: a parsed
value is never callable, and `valueOf` (inherited, or shadowed as well) yields
no primitive, so the conversion throws.  An array converts through `join`,
which converts each element other than `null` and `undefined`. -/
def toPrimitiveThrows : JSVal → Bool
  | .obj fields => hasOwn "toString" fields
  | .arr xs => joinThrows xs
  | _ => false
/-- Whether `join` throws on the elements of an array. -/
def joinThrows : List JSVal → Bool
  | [] => false
  | x :: rest => toPrimitiveThrows x || joinThrows rest
end

/-- The `TypeError` of a failed conversion to a primitive value. -/
def conversionError : JSError :=
  .typeError "Cannot convert object to primitive value"

/-- The expression `new Date(t).toLocaleTimeString()` of line 30: the
constructor converts `t` to a primitive first, which may throw; otherwise the
text is `fmt t` (`Invalid Date` included). -/
def formatTime (fmt : JSVal → String) (t : JSVal) : Except JSError String :=
  if toPrimitiveThrows t then .error conversionError else .ok (fmt t)

/-- The callback of line 30: `d => new Date(d.time).toLocaleTimeString()`. -/
def timeLabel (fmt : JSVal → String) (d : JSVal) : Except JSError String :=
  match getProp d "time" with
  | .error e => .error e
  | .ok t => formatTime fmt t

/-- The test `data.length === 0` (line 24), evaluated only for a truthy `data`. -/
def lengthIsZero (data : JSVal) : Bool :=
  match getProp data "length" with
  | .ok (.num x) => x == 0
  | _ => false

/-- The test `data.length > 0` (line 36).  It is reached only after `data.map`
succeeded, that is with an array, whose `length` is a number. -/
def lengthIsPositive (data : JSVal) : Bool :=
  match getProp data "length" with
  | .ok (.num x) => decide (0 < x)
  | _ => false

/-- Left-to-right map with a callback that may throw: the first exception
aborts the map, as in `Array.prototype.map`. -/
def mapE {α β : Type} (f : α → Except JSError β) : List α → Except JSError (List β)
  | [] => .ok []
  | a :: rest =>
    match f a with
    | .error e => .error e
    | .ok b =>
      match mapE f rest with
      | .error e => .error e
      | .ok bs => .ok (b :: bs)

/-- The method call `data.map(f)`: only an array has a callable `map`; for any
other truthy value `data.map` is not a function. -/
def jsMap {β : Type} (f : JSVal → Except JSError β) : JSVal → Except JSError (List β)
  | .arr xs => mapE f xs
  | _ => .error (.typeError "data.map is not a function")

/-- Line 19-21: `getEmoji`. -/
def getEmoji (stressed : JSVal) : String :=
  if truthy stressed then "ðŸ˜Ÿ" else "ðŸ˜Š"

/-- Text of line 26. -/
def noDataText : String := "No data ðŸ”„"

/-- Text of line 131. -/
def errorText : String := "Error ðŸ”„"

/-- The four parallel sequences of lines 30-33. -/
structure Series where
  times : List String
  stress : List JSVal
  temps : List JSVal
  hrs : List JSVal

/-- Lines 30-33: the four `data.map` calls, in source order. -/
def deriveSeries (fmt : JSVal → String) (data : JSVal) : Except JSError Series :=
  match jsMap (timeLabel fmt) data with
  | .error e => .error e
  | .ok times =>
    match jsMap (fun d => getProp d "stressed") data with
    | .error e => .error e
    | .ok stress =>
      match jsMap (fun d => getProp d "temp") data with
      | .error e => .error e
      | .ok temps =>
        match jsMap (fun d => getProp d "hr") data with
        | .error e => .error e
        | .ok hrs => .ok { times := times, stress := stress, temps := temps, hrs := hrs }

/-! ## Page state -/

/-- The three canvas contexts of lines 3-5. -/
inductive Canvas where
  | stressCtx
  | tempCtx
  | hrCtx
  deriving DecidableEq, Repr

/-- A chart object: `oid` is its identity (allocation number), the rest is the
configuration handed to the constructor; `labels` is `chart.data.labels` and
`data` is `chart.data.datasets[0].data`. -/
structure Chart where
  oid : Nat
  ctx : Canvas
  label : String
  borderColor : String
  backgroundColor : String
  yTitle : String
  labels : List String
  data : List JSVal

/-- Observable effects, in program order. -/
inductive Effect where
  /-- `console.log(msg, ...args)` -/
  | log (msg : String) (args : List JSVal)
  /-- `console.error(msg, err)` -/
  | error (msg : String) (err : JSError)
  /-- `new Chart(ctx, ..)` returned the object `oid` -/
  | construct (ctx : Canvas) (oid : Nat)
  /-- `chart.update()` on the object `oid` -/
  | redraw (oid : Nat)
  /-- control entered `updateCharts` -/
  | enterUpdateCharts

/-- The closure variables of the script and the effects performed so far. -/
structure Page where
  stressChart : Option Chart
  tempChart : Option Chart
  hrChart : Option Chart
  /-- `emojiBox.textContent` -/
  emojiBox : String
  /-- identity of the next allocated chart object -/
  nextOid : Nat
  trace : List Effect

/-- State after line 8: no chart yet; `text` is the indicator text of the markup. -/
def Page.initial (text : String) : Page :=
  { stressChart := none, tempChart := none, hrChart := none,
    emojiBox := text, nextOid := 0, trace := [] }

/-- Append one effect to the trace. -/
def Page.emit (s : Page) (e : Effect) : Page :=
  { s with trace := s.trace ++ [e] }

/-- Number of `new Chart` calls performed so far. -/
def constructions (s : Page) : Nat :=
  (s.trace.filter (fun e => match e with | .construct _ _ => true | _ => false)).length

/-- Number of `chart.update()` calls performed so far. -/
def redraws (s : Page) : Nat :=
  (s.trace.filter (fun e => match e with | .redraw _ => true | _ => false)).length

/-- Number of times `updateCharts` was entered so far. -/
def renderCalls (s : Page) : Nat :=
  (s.trace.filter (fun e => match e with | .enterUpdateCharts => true | _ => false)).length

/-- The constructor call `new Chart(ctx, config)` with `type: 'line'`, the given
labels, one dataset and `options: getChartOptions(yTitle)`: it allocates a
fresh object. -/
def newChart (ctx : Canvas) (label borderColor backgroundColor yTitle : String)
    (labels : List String) (data : List JSVal) (s : Page) : Chart × Page :=
  ({ oid := s.nextOid, ctx := ctx, label := label, borderColor := borderColor,
     backgroundColor := backgroundColor, yTitle := yTitle, labels := labels, data := data },
   { s with nextOid := s.nextOid + 1, trace := s.trace ++ [.construct ctx s.nextOid] })

/-- Lines 47-98: the three constructor calls of the creation branch. -/
def createCharts (q : Series) (s : Page) : Page :=
  let (c1, s1) := newChart .stressCtx "Stress Status" "red" "rgba(255, 0, 0, 0.1)"
    "Stress (0=No, 1=Yes)" q.times q.stress s
  let s1 := { s1 with stressChart := some c1 }
  let (c2, s2) := newChart .tempCtx "Temperature (Â°C)" "orange" "rgba(255, 165, 0, 0.1)"
    "Temperature (Â°C)" q.times q.temps s1
  let s2 := { s2 with tempChart := some c2 }
  let (c3, s3) := newChart .hrCtx "Heart Rate (BPM)" "blue" "rgba(0, 0, 255, 0.1)"
    "Heart Rate (BPM)" q.times q.hrs s2
  { s3 with hrChart := some c3 }

/-- Error of `x.data` when the handle `x` is `undefined`. -/
def undefinedChartError : JSError :=
  .typeError "Cannot read properties of undefined (reading 'data')"

/-- Lines 103-115: in-place update of the three charts.  The branch is entered
on the test of `stressChart` alone, so `tempChart` and `hrChart` are
dereferenced unchecked. -/
def mutateCharts (sc : Chart) (q : Series) (s : Page) : Option JSError × Page :=
  let s1 := ({ s with stressChart := some { sc with labels := q.times, data := q.stress } }).emit
    (.redraw sc.oid)
  match s1.tempChart with
  | none => (some undefinedChartError, s1)
  | some tc =>
    let s2 := ({ s1 with tempChart := some { tc with labels := q.times, data := q.temps } }).emit
      (.redraw tc.oid)
    match s2.hrChart with
    | none => (some undefinedChartError, s2)
    | some hc =>
      (none, ({ s2 with hrChart := some { hc with labels := q.times, data := q.hrs } }).emit
        (.redraw hc.oid))

/-- Lines 35-40: the indicator follows the last element of `stress`. -/
def setIndicator (data : JSVal) (q : Series) (s : Page) : Page :=
  if lengthIsPositive data then
    let latestStress := (q.stress[q.stress.length - 1]?).getD .undefined
    ({ s with emojiBox := getEmoji latestStress }).emit (.log "Latest stress:" [latestStress])
  else s

/-- Lines 42-116: create the charts when `stressChart` is unset, else update them. -/
def createOrUpdate (q : Series) (s : Page) : Option JSError × Page :=
  match s.stressChart with
  | none => (none, createCharts q (s.emit (.log "Creating new charts" [])))
  | some sc => mutateCharts sc q (s.emit (.log "Updating existing charts" []))

/-- Lines 23-117: `updateCharts(data)`.  The result is the exception that
escaped (if any) and the page left behind. -/
def updateCharts (fmt : JSVal → String) (data : JSVal) (s : Page) : Option JSError × Page :=
  let s := s.emit .enterUpdateCharts
  if !truthy data || lengthIsZero data then
    (none, { (s.emit (.log "No data received" [])) with emojiBox := noDataText })
  else
    match deriveSeries fmt data with
    | .error e => (some e, s)
    | .ok q => createOrUpdate q (setIndicator data q s)

/-! ## Poller -/

/-- Outcome of `response.json()`. -/
inductive Body where
  /-- the body is not valid JSON: the promise rejects -/
  | invalid
  /-- the body parsed to `v` -/
  | parsed (v : JSVal)

/-- A response of the endpoint. -/
structure Response where
  status : Nat
  body : Body

/-- The flag `response.ok`: the status is in the range 200-299. -/
def Response.ok (r : Response) : Bool :=
  decide (200 ≤ r.status) && decide (r.status ≤ 299)

/-- Outcome of `fetch('/data')`. -/
inductive FetchOutcome where
  /-- the request could not complete: the promise rejects -/
  | rejected
  /-- a response arrived -/
  | responded (r : Response)

/-- Lines 121-128: the body of the `try` block. -/
def fetchBody (fmt : JSVal → String) (out : FetchOutcome) (s : Page) : Option JSError × Page :=
  let s := s.emit (.log "Fetching data..." [])
  match out with
  | .rejected => (some .fetchFailed, s)
  | .responded r =>
    if !r.ok then (some (.httpError r.status), s)
    else
      match r.body with
      | .invalid => (some .syntaxError, s)
      | .parsed data =>
        -- line 127 reads `data.length` and converts it to a string for the message
        match getProp data "length" with
        | .error e => (some e, s)
        | .ok len =>
          if toPrimitiveThrows len then (some conversionError, s)
          else updateCharts fmt data (s.emit (.log "Fetched <data.length> data points" [len]))

/-- Lines 129-132: the `catch` block. -/
def onFetchError (error : JSError) (s : Page) : Option JSError × Page :=
  (none, { (s.emit (.error "Fetch error:" error)) with emojiBox := errorText })

/-- The statement `try body catch (error) handler`. -/
def tryCatch (body : Page → Option JSError × Page)
    (handler : JSError → Page → Option JSError × Page) (s : Page) : Option JSError × Page :=
  match body s with
  | (none, s1) => (none, s1)
  | (some e, s1) => handler e s1

/-- Lines 119-133: `fetchData()`, run on the outcome of its request.  The
first component is the rejection of the returned promise, if any. -/
def fetchData (fmt : JSVal → String) (out : FetchOutcome) (s : Page) : Option JSError × Page :=
  tryCatch (fetchBody fmt out) onFetchError s

/-- Unhandled rejections and final page of a run of polls, each run to
completion on its outcome, in completion order.  A timer callback runs
whatever the earlier callbacks did, so every outcome is processed. -/
def session (fmt : JSVal → String) : List FetchOutcome → Page → List JSError × Page
  | [], s => ([], s)
  | out :: rest, s =>
    match fetchData fmt out s with
    | (none, s1) => session fmt rest s1
    | (some e, s1) => ((session fmt rest s1).1 ++ [e], (session fmt rest s1).2)

/-- A run of `updateCharts` calls, one per element; an exception ends only
the call that raised it. -/
def run (fmt : JSVal → String) : List JSVal → Page → Page
  | [], s => s
  | data :: rest, s => run fmt rest (updateCharts fmt data s).2

/-- The log entry of line 121, the first statement of every poll. -/
def isFetchLog : Effect → Bool
  | .log msg _ => msg == "Fetching data..."
  | _ => false

/-- Number of polls started so far. -/
def pollsStarted (s : Page) : Nat :=
  (s.trace.filter isFetchLog).length

/-! ## Start-up -/

/-- Functions of the script that can be scheduled. -/
inductive Callback where
  | fetchData
  deriving DecidableEq, Repr

/-- Scheduling actions of the start-up code. -/
inductive Sched where
  /-- a direct call -/
  | call (fn : Callback)
  /-- `setInterval(fn, ms)` -/
  | setInterval (fn : Callback) (ms : Nat)
  deriving DecidableEq, Repr

/-- Lines 170-171: `fetchData(); setInterval(fetchData, 5000);`. -/
def startup : List Sched :=
  [.call .fetchData, .setInterval .fetchData 5000]

/-- Number of direct calls of `fn` at start-up. -/
def immediateCalls (fn : Callback) (p : List Sched) : Nat :=
  (p.filter (fun a => a == .call fn)).length

/-- Periods (in milliseconds) of the interval timers registered for `fn`. -/
def timerPeriods (fn : Callback) : List Sched → List Nat
  | [] => []
  | .setInterval g ms :: rest =>
    if g = fn then ms :: timerPeriods fn rest else timerPeriods fn rest
  | .call _ :: rest => timerPeriods fn rest

/-! ## Vocabulary of the properties -/

/-- A row the callbacks of lines 30-33 can read: anything but `null` and `undefined`. -/
def readable : JSVal → Bool
  | .undefined => false
  | .null => false
  | _ => true

/-- Value of `d.k` for a readable row (`undefined` stands for a failed read). -/
def prop (k : String) (d : JSVal) : JSVal :=
  match getProp d k with
  | .ok v => v
  | .error _ => .undefined

/-- The sequences of lines 30-33 for an array of plain rows. -/
def seriesOf (fmt : JSVal → String) (xs : List JSVal) : Series :=
  { times := xs.map (fun d => fmt (prop "time" d)),
    stress := xs.map (prop "stressed"),
    temps := xs.map (prop "temp"),
    hrs := xs.map (prop "hr") }

/-- Values that are not objects: `undefined`, `null`, booleans, numbers, strings. -/
def primitive : JSVal → Bool
  | .arr _ => false
  | .obj _ => false
  | _ => true

/-- A row as the endpoint sends it: neither `null` nor `undefined`, with a
`time` that is not an object (a timestamp string or number; a missing `time`
reads as `undefined`). -/
def plainRow (d : JSVal) : Bool :=
  readable d && primitive (prop "time" d)

/-- A row on which the callback of line 30 throws: `null`, `undefined`, or a
row whose `time` cannot be converted to a primitive value. -/
def rowThrows (d : JSVal) : Bool :=
  !readable d || toPrimitiveThrows (prop "time" d)

/-- A non-empty payload: a non-empty array of plain rows. -/
def isPayload : JSVal → Bool
  | .arr (x :: xs) => (x :: xs).all plainRow
  | _ => false

/-- Three constructions once `stressChart` is set, none before. -/
def countsMatch (s : Page) : Prop :=
  constructions s = if s.stressChart.isSome = true then 3 else 0

/-- The handles are set together: all three undefined or all three defined. -/
def coherent (s : Page) : Prop :=
  (s.stressChart.isSome = s.tempChart.isSome) ∧ (s.tempChart.isSome = s.hrChart.isSome)

/-- Labels and series held by a chart handle. -/
def contents (h : Option Chart) : Option (List String × List JSVal) :=
  h.map (fun c => (c.labels, c.data))

/-- Identity of the chart a handle refers to. -/
def ident (h : Option Chart) : Option Nat :=
  h.map (fun c => c.oid)

/-- Bodies whose reading throws: `null` (line 127), a truthy value that is
not an array and whose `length` is not `0` (line 127 or line 30, `data.map`),
and an array with an element on which the callback of line 30 throws. -/
def unreadableBody : JSVal → Bool
  | .null => true
  | .arr xs => xs.any rowThrows
  | v => truthy v && !lengthIsZero v

/-- Bodies that take the "no data" exit of line 24 when they reach it. -/
def emptyBody (v : JSVal) : Bool :=
  !truthy v || lengthIsZero v

/-- A poll that is a failure or carries an empty payload: the request is
rejected, the status is not a success, the body is not valid JSON, or the
body is unreadable or empty. -/
def failsOrEmpty : FetchOutcome → Bool
  | .rejected => true
  | .responded r =>
    !r.ok || (match r.body with
      | .invalid => true
      | .parsed v => unreadableBody v || emptyBody v)

/-- Page left behind by `updateCharts(data)`. -/
def rendered (fmt : JSVal → String) (data : JSVal) (s : Page) : Page :=
  (updateCharts fmt data s).2

/-- Page left behind by a poll with outcome `out`. -/
def polled (fmt : JSVal → String) (out : FetchOutcome) (s : Page) : Page :=
  (fetchData fmt out s).2

/-- A Sample of the endpoint, as the object `JSON.parse` builds for it. -/
def sample (time : String) (stressed : Bool) (temp hr : Rat) : JSVal :=
  .obj [("time", .str time), ("stressed", .bool stressed), ("temp", .num temp), ("hr", .num hr)]

/-- The two rows of the worked example. -/
def exampleRows : List JSVal :=
  [sample "2024-01-01T00:00:00Z" false 22.5 70,
   sample "2024-01-01T00:00:05Z" true 23.1 95]

/-- A stand-in formatter for concrete evaluations: the text of a string
timestamp, and `Invalid Date` for anything else. -/
def plainTime : JSVal → String
  | .str s => s
  | _ => "Invalid Date"



/-! ## Reading rows -/

theorem getProp_of_readable (d : JSVal) (k : String) (h : readable d = true) :
    getProp d k = .ok (prop k d) := by
  cases d <;> simp [readable] at h <;> simp only [prop, getProp] <;> split <;> rfl

theorem getProp_error_of_unreadable (d : JSVal) (k : String) (h : readable d = false) :
    ∃ e, getProp d k = .error e := by
  cases d <;> simp [readable] at h <;> exact ⟨_, rfl⟩

theorem mapE_eq_map {α β : Type} (f : α → Except JSError β) (g : α → β) (xs : List α)
    (h : ∀ x ∈ xs, f x = .ok (g x)) : mapE f xs = .ok (xs.map g) := by
  induction xs with
  | nil => rfl
  | cons a rest ih =>
    have ha : f a = .ok (g a) := h a (List.mem_cons_self a rest)
    have hr : mapE f rest = .ok (rest.map g) :=
      ih (fun x hx => h x (List.mem_cons_of_mem a hx))
    simp [mapE, ha, hr]

theorem mapE_length {α β : Type} (f : α → Except JSError β) (xs : List α) (ys : List β)
    (h : mapE f xs = .ok ys) : ys.length = xs.length := by
  induction xs generalizing ys with
  | nil =>
    simp [mapE] at h
    subst h; rfl
  | cons a rest ih =>
    simp only [mapE] at h
    split at h
    · cases h
    · split at h
      · cases h
      · rename_i bs hbs
        cases h
        simp [ih bs hbs]

theorem toPrimitiveThrows_of_primitive (t : JSVal) (h : primitive t = true) :
    toPrimitiveThrows t = false := by
  cases t <;> simp [primitive] at h <;> simp [toPrimitiveThrows]

theorem readable_of_plainRow (d : JSVal) (h : plainRow d = true) : readable d = true := by
  simp only [plainRow, Bool.and_eq_true] at h
  exact h.1

theorem timeLabel_of_plainRow (fmt : JSVal → String) (d : JSVal) (h : plainRow d = true) :
    timeLabel fmt d = .ok (fmt (prop "time" d)) := by
  simp only [plainRow, Bool.and_eq_true] at h
  simp [timeLabel, getProp_of_readable d "time" h.1, formatTime,
    toPrimitiveThrows_of_primitive _ h.2]

theorem timeLabel_error_of_rowThrows (fmt : JSVal → String) (d : JSVal)
    (h : rowThrows d = true) : ∃ e, timeLabel fmt d = .error e := by
  cases hr : readable d with
  | false =>
    obtain ⟨e, he⟩ := getProp_error_of_unreadable d "time" hr
    exact ⟨e, by simp [timeLabel, he]⟩
  | true =>
    have ht : toPrimitiveThrows (prop "time" d) = true := by
      simpa [rowThrows, hr] using h
    exact ⟨conversionError, by simp [timeLabel, getProp_of_readable d "time" hr, formatTime, ht]⟩

theorem mapE_error_of_any {α β : Type} (f : α → Except JSError β) (p : α → Bool)
    (hp : ∀ a, p a = true → ∃ e, f a = .error e) (xs : List α) (h : xs.any p = true) :
    ∃ e, mapE f xs = .error e := by
  induction xs with
  | nil => simp at h
  | cons a rest ih =>
    simp only [mapE]
    cases hfa : f a with
    | error e => exact ⟨e, rfl⟩
    | ok b =>
      have hpa : p a = false := by
        cases hpa : p a with
        | false => rfl
        | true =>
          obtain ⟨e, he⟩ := hp a hpa
          rw [he] at hfa
          cases hfa
      have hrest : rest.any p = true := by simpa [List.any_cons, hpa] using h
      obtain ⟨e, he⟩ := ih hrest
      exact ⟨e, by simp [he]⟩

theorem deriveSeries_arr (fmt : JSVal → String) (xs : List JSVal)
    (h : xs.all plainRow = true) : deriveSeries fmt (.arr xs) = .ok (seriesOf fmt xs) := by
  have hr : ∀ x ∈ xs, plainRow x = true := by simpa [List.all_eq_true] using h
  have h1 : mapE (timeLabel fmt) xs = .ok (xs.map (fun d => fmt (prop "time" d))) :=
    mapE_eq_map _ _ xs (fun x hx => timeLabel_of_plainRow fmt x (hr x hx))
  have h2 : ∀ k, mapE (fun d => getProp d k) xs = .ok (xs.map (prop k)) := fun k =>
    mapE_eq_map _ _ xs (fun x hx => getProp_of_readable x k (readable_of_plainRow x (hr x hx)))
  simp [deriveSeries, jsMap, h1, h2, seriesOf]

theorem lengthIsZero_arr (xs : List JSVal) : lengthIsZero (.arr xs) = xs.isEmpty := by
  cases xs with
  | nil => simp [lengthIsZero, getProp]
  | cons a rest =>
    simp [lengthIsZero, getProp]
    exact_mod_cast Nat.succ_ne_zero rest.length

theorem lengthIsPositive_arr (xs : List JSVal) (h : xs ≠ []) :
    lengthIsPositive (.arr xs) = true := by
  have hpos : 0 < xs.length := List.length_pos.2 h
  simp only [lengthIsPositive, getProp, beq_self_eq_true, if_true, decide_eq_true_eq]
  exact_mod_cast hpos

theorem emptyGuard_arr (xs : List JSVal) :
    (!truthy (.arr xs) || lengthIsZero (.arr xs)) = xs.isEmpty := by
  simp [truthy, lengthIsZero_arr]

theorem deriveSeries_error_of_unreadable (fmt : JSVal → String) (v : JSVal)
    (h : unreadableBody v = true) : ∃ e, deriveSeries fmt v = .error e := by
  cases v with
  | arr xs =>
    have hu : xs.any rowThrows = true := by simpa [unreadableBody] using h
    obtain ⟨e, he⟩ := mapE_error_of_any (timeLabel fmt) rowThrows
      (timeLabel_error_of_rowThrows fmt) xs hu
    exact ⟨e, by simp [deriveSeries, jsMap, he]⟩
  | _ => exact ⟨_, rfl⟩

theorem deriveSeries_ok_arr (fmt : JSVal → String) (v : JSVal) (q : Series)
    (h : deriveSeries fmt v = .ok q) :
    ∃ xs, v = .arr xs ∧ q.times.length = xs.length ∧ q.stress.length = xs.length := by
  cases v with
  | arr xs =>
    refine ⟨xs, rfl, ?_⟩
    simp only [deriveSeries, jsMap] at h
    split at h
    · cases h
    · rename_i times ht
      split at h
      · cases h
      · rename_i stress hs
        split at h
        · cases h
        · split at h
          · cases h
          · cases h
            exact ⟨mapE_length _ _ _ ht, mapE_length _ _ _ hs⟩
  | _ => simp [deriveSeries, jsMap] at h


/-! ## The render stages -/

theorem constructions_emit (s : Page) (e : Effect) :
    constructions (s.emit e)
      = constructions s + (match e with | .construct _ _ => 1 | _ => 0) := by
  cases e <;> simp [constructions, Page.emit, List.filter_append]

theorem setIndicator_frame (data : JSVal) (q : Series) (s : Page) :
    (setIndicator data q s).stressChart = s.stressChart ∧
    (setIndicator data q s).tempChart = s.tempChart ∧
    (setIndicator data q s).hrChart = s.hrChart ∧
    (setIndicator data q s).nextOid = s.nextOid ∧
    constructions (setIndicator data q s) = constructions s ∧
    redraws (setIndicator data q s) = redraws s ∧
    renderCalls (setIndicator data q s) = renderCalls s ∧
    pollsStarted (setIndicator data q s) = pollsStarted s := by
  unfold setIndicator
  split <;>
    simp [Page.emit, constructions, redraws, renderCalls, pollsStarted, isFetchLog,
      List.filter_append]

theorem createOrUpdate_frame (q : Series) (s : Page) :
    (createOrUpdate q s).2.emojiBox = s.emojiBox ∧
    pollsStarted (createOrUpdate q s).2 = pollsStarted s ∧
    renderCalls (createOrUpdate q s).2 = renderCalls s ∧
    (coherent s → coherent (createOrUpdate q s).2) := by
  obtain ⟨a, b, c, e, n, t⟩ := s
  cases a <;> cases b <;> cases c <;>
    simp [createOrUpdate, createCharts, newChart, mutateCharts, Page.emit, coherent,
      pollsStarted, renderCalls, isFetchLog, List.filter_append]

theorem createOrUpdate_create (q : Series) (s : Page) (h : s.stressChart = none) :
    (createOrUpdate q s).1 = none ∧
    (∃ c1 c2 c3, (createOrUpdate q s).2.stressChart = some c1 ∧
      (createOrUpdate q s).2.tempChart = some c2 ∧
      (createOrUpdate q s).2.hrChart = some c3 ∧
      c1.ctx = .stressCtx ∧ c2.ctx = .tempCtx ∧ c3.ctx = .hrCtx ∧
      c1.oid = s.nextOid ∧ c2.oid = s.nextOid + 1 ∧ c3.oid = s.nextOid + 2 ∧
      c1.labels = q.times ∧ c2.labels = q.times ∧ c3.labels = q.times ∧
      c1.data = q.stress ∧ c2.data = q.temps ∧ c3.data = q.hrs) ∧
    constructions (createOrUpdate q s).2 = constructions s + 3 ∧
    redraws (createOrUpdate q s).2 = redraws s := by
  obtain ⟨a, b, c, e, n, t⟩ := s
  simp only at h
  subst h
  simp [createOrUpdate, createCharts, newChart, Page.emit, constructions, redraws,
    List.filter_append]

theorem createOrUpdate_update (q : Series) (s : Page) (sc : Chart)
    (h : s.stressChart = some sc) :
    ident (createOrUpdate q s).2.stressChart = ident s.stressChart ∧
    ident (createOrUpdate q s).2.tempChart = ident s.tempChart ∧
    ident (createOrUpdate q s).2.hrChart = ident s.hrChart ∧
    constructions (createOrUpdate q s).2 = constructions s ∧
    (createOrUpdate q s).2.nextOid = s.nextOid := by
  obtain ⟨a, b, c, e, n, t⟩ := s
  simp only at h
  subst h
  cases b <;> cases c <;>
    simp [createOrUpdate, mutateCharts, Page.emit, constructions, ident, List.filter_append]

theorem createOrUpdate_coherent (q : Series) (s : Page) (h : coherent s) :
    (createOrUpdate q s).1 = none ∧
    contents (createOrUpdate q s).2.stressChart = some (q.times, q.stress) ∧
    contents (createOrUpdate q s).2.tempChart = some (q.times, q.temps) ∧
    contents (createOrUpdate q s).2.hrChart = some (q.times, q.hrs) := by
  obtain ⟨a, b, c, e, n, t⟩ := s
  cases a <;> cases b <;> cases c <;> simp [coherent] at h <;>
    simp [createOrUpdate, createCharts, newChart, mutateCharts, Page.emit, contents]

theorem createOrUpdate_redraws (q : Series) (s : Page) (h : coherent s)
    (hc : s.stressChart.isSome = true) :
    redraws (createOrUpdate q s).2 = redraws s + 3 := by
  obtain ⟨a, b, c, e, n, t⟩ := s
  cases a <;> cases b <;> cases c <;> simp [coherent] at h hc
  simp [createOrUpdate, mutateCharts, Page.emit, redraws, List.filter_append]


/-! ## `updateCharts` by cases -/

theorem updateCharts_cases (fmt : JSVal → String) (data : JSVal) (s : Page) :
    ((!truthy data || lengthIsZero data) = true ∧
      updateCharts fmt data s
        = (none, { ((s.emit .enterUpdateCharts).emit (.log "No data received" []))
                    with emojiBox := noDataText })) ∨
    (∃ e, (!truthy data || lengthIsZero data) = false ∧ deriveSeries fmt data = .error e ∧
      updateCharts fmt data s = (some e, s.emit .enterUpdateCharts)) ∨
    (∃ q, (!truthy data || lengthIsZero data) = false ∧ deriveSeries fmt data = .ok q ∧
      updateCharts fmt data s
        = createOrUpdate q (setIndicator data q (s.emit .enterUpdateCharts))) := by
  cases hg : (!truthy data || lengthIsZero data) with
  | true => exact Or.inl ⟨rfl, by simp [updateCharts, hg]⟩
  | false =>
    cases hd : deriveSeries fmt data with
    | error e => exact Or.inr (Or.inl ⟨e, rfl, rfl, by simp [updateCharts, hg, hd]⟩)
    | ok q => exact Or.inr (Or.inr ⟨q, rfl, rfl, by simp [updateCharts, hg, hd]⟩)

theorem updateCharts_payload (fmt : JSVal → String) (xs : List JSVal) (s : Page)
    (hne : xs ≠ []) (hrows : xs.all plainRow = true) :
    updateCharts fmt (.arr xs) s
      = createOrUpdate (seriesOf fmt xs)
          (setIndicator (.arr xs) (seriesOf fmt xs) (s.emit .enterUpdateCharts)) := by
  have hg : (!truthy (.arr xs) || lengthIsZero (.arr xs)) = false := by
    rw [emptyGuard_arr]; simpa using hne
  simp [updateCharts, hg, deriveSeries_arr fmt xs hrows]

theorem isPayload_arr (xs : List JSVal) (hne : xs ≠ []) (hrows : xs.all plainRow = true) :
    isPayload (.arr xs) = true := by
  cases xs with
  | nil => exact absurd rfl hne
  | cons a rest => simpa [isPayload] using hrows

theorem isPayload_elim (v : JSVal) (h : isPayload v = true) :
    ∃ xs, v = .arr xs ∧ xs ≠ [] ∧ xs.all plainRow = true := by
  cases v with
  | arr xs =>
    cases xs with
    | nil => simp [isPayload] at h
    | cons a rest => exact ⟨a :: rest, rfl, by simp, by simpa [isPayload] using h⟩
  | _ => simp [isPayload] at h

/-- A call that takes the "no data" exit, or throws while reading the rows,
leaves the three handles, and the objects they refer to, exactly as they were. -/
theorem updateCharts_skipped (fmt : JSVal → String) (data : JSVal) (s : Page)
    (h : emptyBody data = true ∨ ∃ e, deriveSeries fmt data = .error e) :
    (updateCharts fmt data s).2.stressChart = s.stressChart ∧
    (updateCharts fmt data s).2.tempChart = s.tempChart ∧
    (updateCharts fmt data s).2.hrChart = s.hrChart ∧
    (updateCharts fmt data s).2.nextOid = s.nextOid ∧
    constructions (updateCharts fmt data s).2 = constructions s ∧
    redraws (updateCharts fmt data s).2 = redraws s := by
  rcases updateCharts_cases fmt data s with ⟨_, hu⟩ | ⟨e, _, _, hu⟩ | ⟨q, hg, hd, _⟩
  · simp [hu, Page.emit, constructions, redraws, List.filter_append]
  · simp [hu, Page.emit, constructions, redraws, List.filter_append]
  · rcases h with h | ⟨e, he⟩
    · rw [emptyBody, hg] at h; cases h
    · rw [he] at hd; cases hd

theorem emit_coherent (s : Page) (e : Effect) : coherent (s.emit e) ↔ coherent s := by
  simp [coherent, Page.emit]

theorem setIndicator_coherent (data : JSVal) (q : Series) (s : Page) :
    coherent (setIndicator data q s) ↔ coherent s := by
  obtain ⟨h1, h2, h3, _⟩ := setIndicator_frame data q s
  simp [coherent, h1, h2, h3]

theorem updateCharts_coherent (fmt : JSVal → String) (data : JSVal) (s : Page)
    (h : coherent s) : coherent (updateCharts fmt data s).2 := by
  rcases updateCharts_cases fmt data s with ⟨_, hu⟩ | ⟨e, _, _, hu⟩ | ⟨q, _, _, hu⟩
  · rw [hu]; simpa [coherent, Page.emit] using h
  · rw [hu]; simpa [coherent, Page.emit] using h
  · rw [hu]
    exact (createOrUpdate_frame q _).2.2.2
      ((setIndicator_coherent data q _).2 ((emit_coherent s _).2 h))

theorem updateCharts_pollsStarted (fmt : JSVal → String) (data : JSVal) (s : Page) :
    pollsStarted (updateCharts fmt data s).2 = pollsStarted s := by
  rcases updateCharts_cases fmt data s with ⟨_, hu⟩ | ⟨e, _, _, hu⟩ | ⟨q, _, _, hu⟩
  · simp [hu, Page.emit, pollsStarted, isFetchLog, List.filter_append]
  · simp [hu, Page.emit, pollsStarted, isFetchLog, List.filter_append]
  · rw [hu, (createOrUpdate_frame q _).2.1, (setIndicator_frame data q _).2.2.2.2.2.2.2]
    simp [Page.emit, pollsStarted, isFetchLog, List.filter_append]

/-- Whatever the input, a defined `stressChart` keeps all three handles on
the objects they referred to, and nothing is constructed. -/
theorem updateCharts_keeps_handles (fmt : JSVal → String) (data : JSVal) (s : Page)
    (sc : Chart) (h : s.stressChart = some sc) :
    ident (updateCharts fmt data s).2.stressChart = ident s.stressChart ∧
    ident (updateCharts fmt data s).2.tempChart = ident s.tempChart ∧
    ident (updateCharts fmt data s).2.hrChart = ident s.hrChart ∧
    constructions (updateCharts fmt data s).2 = constructions s := by
  rcases updateCharts_cases fmt data s with ⟨_, hu⟩ | ⟨e, _, _, hu⟩ | ⟨q, _, _, hu⟩
  · simp [hu, Page.emit, constructions, List.filter_append]
  · simp [hu, Page.emit, constructions, List.filter_append]
  · obtain ⟨f1, f2, f3, _, f5, _⟩ := setIndicator_frame data q (s.emit .enterUpdateCharts)
    have hs : (setIndicator data q (s.emit .enterUpdateCharts)).stressChart = some sc := by
      rw [f1]; simpa [Page.emit] using h
    obtain ⟨g1, g2, g3, g4, _⟩ := createOrUpdate_update q _ sc hs
    rw [hu, g1, g2, g3, g4, f1, f2, f3, f5]
    simp [Page.emit, constructions, List.filter_append]

/-- In a coherent page the only exception that escapes `updateCharts` is the
one raised while reading the rows (lines 30-33). -/
theorem updateCharts_error_source (fmt : JSVal → String) (data : JSVal) (s : Page)
    (h : coherent s) (e : JSError) (he : (updateCharts fmt data s).1 = some e) :
    deriveSeries fmt data = .error e := by
  rcases updateCharts_cases fmt data s with ⟨_, hu⟩ | ⟨e', _, hd, hu⟩ | ⟨q, _, _, hu⟩
  · rw [hu] at he; cases he
  · rw [hu] at he; cases he; exact hd
  · rw [hu, (createOrUpdate_coherent q _
      ((setIndicator_coherent data q _).2 ((emit_coherent s _).2 h))).1] at he
    cases he


/-! ## One poll -/

/-- Page left by the `catch` block entered from page `s` with exception `e`. -/
theorem polled_caught (fmt : JSVal → String) (out : FetchOutcome) (s s1 : Page) (e : JSError)
    (h : fetchBody fmt out s = (some e, s1)) :
    fetchData fmt out s
      = (none, { (s1.emit (.error "Fetch error:" e)) with emojiBox := errorText }) := by
  simp [fetchData, tryCatch, h, onFetchError]

theorem polled_passed (fmt : JSVal → String) (out : FetchOutcome) (s s1 : Page)
    (h : fetchBody fmt out s = (none, s1)) : fetchData fmt out s = (none, s1) := by
  simp [fetchData, tryCatch, h]

theorem fetchData_fst (fmt : JSVal → String) (out : FetchOutcome) (s : Page) :
    (fetchData fmt out s).1 = none := by
  cases h : fetchBody fmt out s with
  | mk r s1 =>
    cases r with
    | none => rw [polled_passed fmt out s s1 h]
    | some e => rw [polled_caught fmt out s s1 e h]

/-- The `try` block either stops before `updateCharts` or runs it on the body. -/
theorem fetchBody_cases (fmt : JSVal → String) (out : FetchOutcome) (s : Page) :
    (∃ e, fetchBody fmt out s = (some e, s.emit (.log "Fetching data..." []))) ∨
    (∃ r v len, out = .responded r ∧ r.ok = true ∧ r.body = .parsed v ∧
      fetchBody fmt out s
        = updateCharts fmt v ((s.emit (.log "Fetching data..." [])).emit
            (.log "Fetched <data.length> data points" [len]))) := by
  cases out with
  | rejected => exact Or.inl ⟨.fetchFailed, rfl⟩
  | responded r =>
    cases hok : r.ok with
    | false => exact Or.inl ⟨.httpError r.status, by simp [fetchBody, hok]⟩
    | true =>
      cases hb : r.body with
      | invalid => exact Or.inl ⟨.syntaxError, by simp [fetchBody, hok, hb]⟩
      | parsed v =>
        cases hl : getProp v "length" with
        | error e => exact Or.inl ⟨e, by simp [fetchBody, hok, hb, hl]⟩
        | ok len =>
          cases ht : toPrimitiveThrows len with
          | true => exact Or.inl ⟨conversionError, by simp [fetchBody, hok, hb, hl, ht]⟩
          | false =>
            exact Or.inr ⟨r, v, len, rfl, hok, hb, by simp [fetchBody, hok, hb, hl, ht]⟩

theorem fetchData_coherent (fmt : JSVal → String) (out : FetchOutcome) (s : Page)
    (h : coherent s) : coherent (polled fmt out s) := by
  unfold polled
  rcases fetchBody_cases fmt out s with ⟨e, hb⟩ | ⟨r, v, len, _, _, _, hb⟩
  · rw [polled_caught fmt out s _ e hb]
    simpa [coherent, Page.emit] using h
  · have hc : coherent (updateCharts fmt v ((s.emit (.log "Fetching data..." [])).emit
        (.log "Fetched <data.length> data points" [len]))).2 :=
      updateCharts_coherent fmt v _ (by simpa [coherent, Page.emit] using h)
    cases hu : updateCharts fmt v ((s.emit (.log "Fetching data..." [])).emit
        (.log "Fetched <data.length> data points" [len])) with
    | mk res s1 =>
      rw [hu] at hb hc
      cases res with
      | none => rw [polled_passed fmt out s s1 hb]; exact hc
      | some e =>
        rw [polled_caught fmt out s s1 e hb]
        simpa [coherent, Page.emit] using hc

/-- A poll that fails or carries an empty payload leaves the handles, and the
objects they refer to, exactly as they were. -/
theorem fetchData_failsOrEmpty (fmt : JSVal → String) (out : FetchOutcome) (s : Page)
    (h : failsOrEmpty out = true) :
    (polled fmt out s).stressChart = s.stressChart ∧
    (polled fmt out s).tempChart = s.tempChart ∧
    (polled fmt out s).hrChart = s.hrChart ∧
    constructions (polled fmt out s) = constructions s ∧
    redraws (polled fmt out s) = redraws s := by
  unfold polled
  rcases fetchBody_cases fmt out s with ⟨e, hb⟩ | ⟨r, v, len, ho, hok, hbody, hb⟩
  · rw [polled_caught fmt out s _ e hb]
    simp [Page.emit, constructions, redraws, List.filter_append]
  · have hv : emptyBody v = true ∨ ∃ e, deriveSeries fmt v = .error e := by
      subst ho
      have h' : unreadableBody v = true ∨ emptyBody v = true := by
        simpa [failsOrEmpty, hok, hbody] using h
      rcases h' with hu | he
      · exact Or.inr (deriveSeries_error_of_unreadable fmt v hu)
      · exact Or.inl he
    obtain ⟨k1, k2, k3, _, k5, k6⟩ := updateCharts_skipped fmt v
      ((s.emit (.log "Fetching data..." [])).emit
        (.log "Fetched <data.length> data points" [len])) hv
    cases hu : updateCharts fmt v ((s.emit (.log "Fetching data..." [])).emit
        (.log "Fetched <data.length> data points" [len])) with
    | mk res s1 =>
      rw [hu] at hb k1 k2 k3 k5 k6
      simp only at k1 k2 k3 k5 k6
      simp [constructions, redraws, Page.emit, List.filter_append] at k5 k6
      cases res with
      | none =>
        rw [polled_passed fmt out s s1 hb]
        simp [k1, k2, k3, k5, k6, Page.emit, constructions, redraws, List.filter_append]
      | some e =>
        rw [polled_caught fmt out s s1 e hb]
        simp [k1, k2, k3, k5, k6, Page.emit, constructions, redraws, List.filter_append]

/-- A successful poll with a non-empty payload, in a coherent page, leaves
the derived sequences in the three charts. -/
theorem fetchData_payload (fmt : JSVal → String) (r : Response) (xs : List JSVal) (s : Page)
    (hok : r.ok = true) (hbody : r.body = .parsed (.arr xs)) (hne : xs ≠ [])
    (hrows : xs.all plainRow = true) (hs : coherent s) :
    contents (polled fmt (.responded r) s).stressChart
      = some ((seriesOf fmt xs).times, (seriesOf fmt xs).stress) ∧
    contents (polled fmt (.responded r) s).tempChart
      = some ((seriesOf fmt xs).times, (seriesOf fmt xs).temps) ∧
    contents (polled fmt (.responded r) s).hrChart
      = some ((seriesOf fmt xs).times, (seriesOf fmt xs).hrs) := by
  have hb : fetchBody fmt (.responded r) s
      = updateCharts fmt (.arr xs) ((s.emit (.log "Fetching data..." [])).emit
          (.log "Fetched <data.length> data points" [.num xs.length])) := by
    simp [fetchBody, hok, hbody, getProp, toPrimitiveThrows]
  have hc : coherent (setIndicator (.arr xs) (seriesOf fmt xs)
      (((s.emit (.log "Fetching data..." [])).emit
        (.log "Fetched <data.length> data points" [.num xs.length])).emit
          .enterUpdateCharts)) :=
    (setIndicator_coherent _ _ _).2 (by simpa [coherent, Page.emit] using hs)
  obtain ⟨k0, k1, k2, k3⟩ := createOrUpdate_coherent (seriesOf fmt xs) _ hc
  rw [← updateCharts_payload fmt xs _ hne hrows, ← hb] at k0 k1 k2 k3
  cases hf : fetchBody fmt (.responded r) s with
  | mk res s1 =>
    rw [hf] at k0 k1 k2 k3
    simp only at k0
    subst k0
    unfold polled
    rw [polled_passed fmt _ s s1 hf]
    exact ⟨k1, k2, k3⟩

theorem fetchData_pollsStarted (fmt : JSVal → String) (out : FetchOutcome) (s : Page) :
    pollsStarted (polled fmt out s) = pollsStarted s + 1 := by
  unfold polled
  rcases fetchBody_cases fmt out s with ⟨e, hb⟩ | ⟨r, v, len, _, _, _, hb⟩
  · rw [polled_caught fmt out s _ e hb]
    simp [Page.emit, pollsStarted, isFetchLog, List.filter_append]
  · have hp := updateCharts_pollsStarted fmt v ((s.emit (.log "Fetching data..." [])).emit
        (.log "Fetched <data.length> data points" [len]))
    cases hu : updateCharts fmt v ((s.emit (.log "Fetching data..." [])).emit
        (.log "Fetched <data.length> data points" [len])) with
    | mk res s1 =>
      rw [hu] at hb hp
      simp only [pollsStarted, Page.emit, List.filter_append] at hp
      cases res with
      | none =>
        rw [polled_passed fmt out s s1 hb]
        simpa [pollsStarted, isFetchLog] using hp
      | some e =>
        rw [polled_caught fmt out s s1 e hb]
        simpa [pollsStarted, Page.emit, isFetchLog, List.filter_append] using hp


/-! ## Runs of calls and of polls -/

theorem initial_coherent (text : String) : coherent (Page.initial text) := ⟨rfl, rfl⟩

theorem run_coherent (fmt : JSVal → String) (ds : List JSVal) (s : Page) (h : coherent s) :
    coherent (run fmt ds s) := by
  induction ds generalizing s with
  | nil => exact h
  | cons d rest ih => exact ih _ (updateCharts_coherent fmt d s h)

theorem updateCharts_countsMatch (fmt : JSVal → String) (data : JSVal) (s : Page)
    (h : countsMatch s) : countsMatch (updateCharts fmt data s).2 := by
  unfold countsMatch at h ⊢
  cases hsc : s.stressChart with
  | some sc =>
    obtain ⟨k1, _, _, k4⟩ := updateCharts_keeps_handles fmt data s sc hsc
    have hsome : (updateCharts fmt data s).2.stressChart.isSome = true := by
      cases hx : (updateCharts fmt data s).2.stressChart with
      | none => rw [hx, hsc] at k1; simp [ident] at k1
      | some c => rfl
    rw [k4, h, hsc, hsome]; rfl
  | none =>
    rw [hsc] at h
    rcases updateCharts_cases fmt data s with ⟨_, hu⟩ | ⟨e, _, _, hu⟩ | ⟨q, _, _, hu⟩
    · simpa [hu, Page.emit, constructions, List.filter_append, hsc] using h
    · simpa [hu, Page.emit, constructions, List.filter_append, hsc] using h
    · obtain ⟨f1, _, _, _, f5, _⟩ := setIndicator_frame data q (s.emit .enterUpdateCharts)
      have hnone : (setIndicator data q (s.emit .enterUpdateCharts)).stressChart = none := by
        rw [f1]; simpa [Page.emit] using hsc
      obtain ⟨_, ⟨c1, _, _, e1, _⟩, k3, _⟩ := createOrUpdate_create q _ hnone
      rw [hu, k3, e1, f5]
      simp [constructions_emit, h]

theorem run_countsMatch (fmt : JSVal → String) (ds : List JSVal) (s : Page)
    (h : countsMatch s) : countsMatch (run fmt ds s) := by
  induction ds generalizing s with
  | nil => exact h
  | cons d rest ih => exact ih _ (updateCharts_countsMatch fmt d s h)

theorem session_snd_cons (fmt : JSVal → String) (out : FetchOutcome)
    (rest : List FetchOutcome) (s : Page) :
    (session fmt (out :: rest) s).2 = (session fmt rest (polled fmt out s)).2 := by
  simp only [session, polled]
  split <;> rename_i h <;> simp [h]

theorem session_fst (fmt : JSVal → String) (outs : List FetchOutcome) (s : Page) :
    (session fmt outs s).1 = [] := by
  induction outs generalizing s with
  | nil => rfl
  | cons out rest ih =>
    have h := fetchData_fst fmt out s
    simp only [session]
    split
    · exact ih _
    · rename_i e s1 he
      rw [he] at h; cases h

theorem session_snd_append (fmt : JSVal → String) (pre rest : List FetchOutcome) (s : Page) :
    (session fmt (pre ++ rest) s).2 = (session fmt rest (session fmt pre s).2).2 := by
  induction pre generalizing s with
  | nil => rfl
  | cons out pre ih => rw [List.cons_append, session_snd_cons, session_snd_cons, ih]

theorem session_coherent (fmt : JSVal → String) (outs : List FetchOutcome) (s : Page)
    (h : coherent s) : coherent (session fmt outs s).2 := by
  induction outs generalizing s with
  | nil => exact h
  | cons out rest ih =>
    rw [session_snd_cons]; exact ih _ (fetchData_coherent fmt out s h)

theorem session_failsOrEmpty (fmt : JSVal → String) (outs : List FetchOutcome) (s : Page)
    (h : ∀ o ∈ outs, failsOrEmpty o = true) :
    (session fmt outs s).2.stressChart = s.stressChart ∧
    (session fmt outs s).2.tempChart = s.tempChart ∧
    (session fmt outs s).2.hrChart = s.hrChart := by
  induction outs generalizing s with
  | nil => exact ⟨rfl, rfl, rfl⟩
  | cons out rest ih =>
    obtain ⟨k1, k2, k3, _⟩ :=
      fetchData_failsOrEmpty fmt out s (h out (List.mem_cons_self out rest))
    obtain ⟨j1, j2, j3⟩ := ih (polled fmt out s) (fun o ho => h o (List.mem_cons_of_mem out ho))
    rw [session_snd_cons, j1, j2, j3]
    exact ⟨k1, k2, k3⟩

theorem session_pollsStarted (fmt : JSVal → String) (outs : List FetchOutcome) (s : Page) :
    pollsStarted (session fmt outs s).2 = pollsStarted s + outs.length := by
  induction outs generalizing s with
  | nil => rfl
  | cons out rest ih =>
    rw [session_snd_cons, ih, fetchData_pollsStarted, List.length_cons]
    omega



/-! ## Renderer properties -/

theorem contents_eq_some (h : Option Chart) (ls : List String) (ds : List JSVal)
    (hc : contents h = some (ls, ds)) : ∃ c, h = some c ∧ c.labels = ls ∧ c.data = ds := by
  cases h with
  | none => simp [contents] at hc
  | some c =>
    simp only [contents, Option.map_some', Option.some.injEq, Prod.mk.injEq] at hc
    exact ⟨c, rfl, hc.1, hc.2⟩

/-- C1: for a non-empty array of plain rows (rows that are not `null` and whose
`time` is not an object) and a page whose charts are all unset or all set, `updateCharts` leaves three charts that share one label
sequence; labels and series have the length of the input, and at every index
the label is the formatted `time` of the row while the stress, temperature and
heart-rate series hold the row's `stressed`, `temp` and `hr`. -/
theorem updateCharts_series_aligned (fmt : JSVal → String) (xs : List JSVal) (s : Page)
    (hne : xs ≠ []) (hrows : xs.all plainRow = true) (hs : coherent s) :
    ∃ c1 c2 c3,
      (rendered fmt (.arr xs) s).stressChart = some c1 ∧
      (rendered fmt (.arr xs) s).tempChart = some c2 ∧
      (rendered fmt (.arr xs) s).hrChart = some c3 ∧
      c1.labels = c2.labels ∧ c2.labels = c3.labels ∧
      c1.labels.length = xs.length ∧ c1.data.length = xs.length ∧
      c2.data.length = xs.length ∧ c3.data.length = xs.length ∧
      ∀ (i : Nat) (d : JSVal), xs[i]? = some d →
        c1.labels[i]? = some (fmt (prop "time" d)) ∧
        c1.data[i]? = some (prop "stressed" d) ∧
        c2.data[i]? = some (prop "temp" d) ∧
        c3.data[i]? = some (prop "hr" d) := by
  have hc : coherent (setIndicator (.arr xs) (seriesOf fmt xs) (s.emit .enterUpdateCharts)) :=
    (setIndicator_coherent _ _ _).2 ((emit_coherent s _).2 hs)
  obtain ⟨_, k1, k2, k3⟩ := createOrUpdate_coherent (seriesOf fmt xs) _ hc
  rw [← updateCharts_payload fmt xs s hne hrows] at k1 k2 k3
  obtain ⟨c1, e1, l1, d1⟩ := contents_eq_some _ _ _ k1
  obtain ⟨c2, e2, l2, d2⟩ := contents_eq_some _ _ _ k2
  obtain ⟨c3, e3, l3, d3⟩ := contents_eq_some _ _ _ k3
  refine ⟨c1, c2, c3, e1, e2, e3, by rw [l1, l2], by rw [l2, l3], ?_, ?_, ?_, ?_, ?_⟩
  · simp [l1, seriesOf]
  · simp [d1, seriesOf]
  · simp [d2, seriesOf]
  · simp [d3, seriesOf]
  · intro i d hd
    simp [l1, d1, d2, d3, seriesOf, List.getElem?_map, hd]

/-- C1, on the two-sample payload of the worked example from the initial page. -/
theorem updateCharts_series_aligned_witness :
    (∃ c1 c2 c3,
      (rendered plainTime (.arr exampleRows) (Page.initial "")).stressChart = some c1 ∧
      (rendered plainTime (.arr exampleRows) (Page.initial "")).tempChart = some c2 ∧
      (rendered plainTime (.arr exampleRows) (Page.initial "")).hrChart = some c3 ∧
      c1.labels = c2.labels ∧ c2.labels = c3.labels ∧
      c1.labels.length = exampleRows.length ∧ c1.data.length = exampleRows.length ∧
      c2.data.length = exampleRows.length ∧ c3.data.length = exampleRows.length ∧
      ∀ (i : Nat) (d : JSVal), exampleRows[i]? = some d →
        c1.labels[i]? = some (plainTime (prop "time" d)) ∧
        c1.data[i]? = some (prop "stressed" d) ∧
        c2.data[i]? = some (prop "temp" d) ∧
        c3.data[i]? = some (prop "hr" d)) ∧
    contents (rendered plainTime (.arr exampleRows) (Page.initial "")).stressChart
      = some (["2024-01-01T00:00:00Z", "2024-01-01T00:00:05Z"], [.bool false, .bool true]) ∧
    contents (rendered plainTime (.arr exampleRows) (Page.initial "")).tempChart
      = some (["2024-01-01T00:00:00Z", "2024-01-01T00:00:05Z"], [.num 22.5, .num 23.1]) ∧
    contents (rendered plainTime (.arr exampleRows) (Page.initial "")).hrChart
      = some (["2024-01-01T00:00:00Z", "2024-01-01T00:00:05Z"], [.num 70, .num 95]) :=
  ⟨updateCharts_series_aligned plainTime exampleRows (Page.initial "")
      (List.cons_ne_nil _ _) rfl ⟨rfl, rfl⟩, rfl, rfl, rfl⟩

/-- C2: for an array of plain rows whose last row has the boolean `b` as
its `stressed` field, the indicator after `updateCharts` is the stressed glyph
when `b` is true and the calm glyph when it is false, in every page. -/
theorem indicator_follows_last (fmt : JSVal → String) (xs : List JSVal) (last : JSVal)
    (b : Bool) (s : Page) (hrows : xs.all plainRow = true)
    (hlast : xs.getLast? = some last) (hb : getProp last "stressed" = .ok (.bool b)) :
    (rendered fmt (.arr xs) s).emojiBox = if b = true then "ðŸ˜Ÿ" else "ðŸ˜Š" := by
  have hne : xs ≠ [] := by
    intro h; subst h; simp at hlast
  have hidx : xs[xs.length - 1]? = some last := by
    rw [← List.getLast?_eq_getElem?]; exact hlast
  have hp : prop "stressed" last = .bool b := by simp [prop, hb]
  have ht : lengthIsPositive (.arr xs) = true := lengthIsPositive_arr xs hne
  have hs : (seriesOf fmt xs).stress[(seriesOf fmt xs).stress.length - 1]?
      = some (.bool b) := by
    show (xs.map (prop "stressed"))[(xs.map (prop "stressed")).length - 1]? = _
    rw [List.length_map, List.getElem?_map, hidx, Option.map_some', hp]
  rw [rendered, updateCharts_payload fmt xs s hne hrows, (createOrUpdate_frame _ _).1]
  simp only [setIndicator, ht, if_true, hs, Option.getD_some, Page.emit, getEmoji, truthy]

/-- C2, on the worked example: the last row is stressed, so the stressed glyph shows. -/
theorem indicator_follows_last_witness :
    (rendered plainTime (.arr exampleRows) (Page.initial "")).emojiBox = "ðŸ˜Ÿ" :=
  indicator_follows_last plainTime exampleRows (sample "2024-01-01T00:00:05Z" true 23.1 95)
    true (Page.initial "") rfl rfl rfl

/-- C3: `updateCharts` called with an empty array, `null` or `undefined` raises
nothing, sets the indicator to the "no data" text and leaves the three
handles with their labels and series as they were; no chart is constructed
and none is redrawn. -/
theorem updateCharts_no_data (fmt : JSVal → String) (data : JSVal) (s : Page)
    (h : data = .arr [] ∨ data = .null ∨ data = .undefined) :
    (updateCharts fmt data s).1 = none ∧
    (rendered fmt data s).emojiBox = "No data ðŸ”„" ∧
    (rendered fmt data s).stressChart = s.stressChart ∧
    (rendered fmt data s).tempChart = s.tempChart ∧
    (rendered fmt data s).hrChart = s.hrChart ∧
    (rendered fmt data s).nextOid = s.nextOid ∧
    constructions (rendered fmt data s) = constructions s ∧
    redraws (rendered fmt data s) = redraws s := by
  have hg : (!truthy data || lengthIsZero data) = true := by
    rcases h with h | h | h <;> subst h <;> simp [truthy, lengthIsZero_arr]
  rcases updateCharts_cases fmt data s with ⟨_, hu⟩ | ⟨e, hg', _, _⟩ | ⟨q, hg', _, _⟩
  · simp [rendered, hu, noDataText, Page.emit, constructions, redraws, List.filter_append]
  · rw [hg] at hg'; cases hg'
  · rw [hg] at hg'; cases hg'

/-- C3, on an empty array after the charts of the worked example were created. -/
theorem updateCharts_no_data_witness :
    (updateCharts plainTime (.arr []) (rendered plainTime (.arr exampleRows) (Page.initial ""))).1
      = none ∧
    (rendered plainTime (.arr [])
      (rendered plainTime (.arr exampleRows) (Page.initial ""))).emojiBox = "No data ðŸ”„" ∧
    (rendered plainTime (.arr [])
      (rendered plainTime (.arr exampleRows) (Page.initial ""))).stressChart
      = (rendered plainTime (.arr exampleRows) (Page.initial "")).stressChart ∧
    (rendered plainTime (.arr [])
      (rendered plainTime (.arr exampleRows) (Page.initial ""))).tempChart
      = (rendered plainTime (.arr exampleRows) (Page.initial "")).tempChart ∧
    (rendered plainTime (.arr [])
      (rendered plainTime (.arr exampleRows) (Page.initial ""))).hrChart
      = (rendered plainTime (.arr exampleRows) (Page.initial "")).hrChart ∧
    (rendered plainTime (.arr [])
      (rendered plainTime (.arr exampleRows) (Page.initial ""))).nextOid
      = (rendered plainTime (.arr exampleRows) (Page.initial "")).nextOid ∧
    constructions (rendered plainTime (.arr [])
      (rendered plainTime (.arr exampleRows) (Page.initial "")))
      = constructions (rendered plainTime (.arr exampleRows) (Page.initial "")) ∧
    redraws (rendered plainTime (.arr [])
      (rendered plainTime (.arr exampleRows) (Page.initial "")))
      = redraws (rendered plainTime (.arr exampleRows) (Page.initial "")) :=
  updateCharts_no_data plainTime (.arr [])
    (rendered plainTime (.arr exampleRows) (Page.initial "")) (Or.inl rfl)


/-! ## Poller properties -/

/-- C4: a poll whose request is rejected, or whose response has a non-success
status, ends with the indicator set to the "error" text, with the three
handles, their labels and their series as before, and without entering
`updateCharts`. -/
theorem fetchData_transport_failure (fmt : JSVal → String) (out : FetchOutcome) (s : Page)
    (h : out = .rejected ∨ ∃ r, out = .responded r ∧ r.ok = false) :
    (polled fmt out s).emojiBox = "Error ðŸ”„" ∧
    (polled fmt out s).stressChart = s.stressChart ∧
    (polled fmt out s).tempChart = s.tempChart ∧
    (polled fmt out s).hrChart = s.hrChart ∧
    renderCalls (polled fmt out s) = renderCalls s ∧
    constructions (polled fmt out s) = constructions s ∧
    redraws (polled fmt out s) = redraws s := by
  rcases h with h | ⟨r, h, hok⟩ <;> subst h <;>
    simp [polled, fetchData, tryCatch, fetchBody, onFetchError, errorText, Page.emit,
      renderCalls, constructions, redraws, List.filter_append, *]

/-- C4, on a status-500 response and on a rejected request, after the charts
of the worked example were created. -/
theorem fetchData_transport_failure_witness :
    ((polled plainTime (.responded ⟨500, .invalid⟩)
        (rendered plainTime (.arr exampleRows) (Page.initial ""))).emojiBox = "Error ðŸ”„" ∧
      (polled plainTime (.responded ⟨500, .invalid⟩)
        (rendered plainTime (.arr exampleRows) (Page.initial ""))).stressChart
        = (rendered plainTime (.arr exampleRows) (Page.initial "")).stressChart ∧
      (polled plainTime (.responded ⟨500, .invalid⟩)
        (rendered plainTime (.arr exampleRows) (Page.initial ""))).tempChart
        = (rendered plainTime (.arr exampleRows) (Page.initial "")).tempChart ∧
      (polled plainTime (.responded ⟨500, .invalid⟩)
        (rendered plainTime (.arr exampleRows) (Page.initial ""))).hrChart
        = (rendered plainTime (.arr exampleRows) (Page.initial "")).hrChart ∧
      renderCalls (polled plainTime (.responded ⟨500, .invalid⟩)
        (rendered plainTime (.arr exampleRows) (Page.initial "")))
        = renderCalls (rendered plainTime (.arr exampleRows) (Page.initial "")) ∧
      constructions (polled plainTime (.responded ⟨500, .invalid⟩)
        (rendered plainTime (.arr exampleRows) (Page.initial "")))
        = constructions (rendered plainTime (.arr exampleRows) (Page.initial "")) ∧
      redraws (polled plainTime (.responded ⟨500, .invalid⟩)
        (rendered plainTime (.arr exampleRows) (Page.initial "")))
        = redraws (rendered plainTime (.arr exampleRows) (Page.initial ""))) ∧
    (polled plainTime .rejected (Page.initial "")).emojiBox = "Error ðŸ”„" :=
  ⟨fetchData_transport_failure plainTime (.responded ⟨500, .invalid⟩)
      (rendered plainTime (.arr exampleRows) (Page.initial "")) (Or.inr ⟨_, rfl, rfl⟩),
   (fetchData_transport_failure plainTime .rejected (Page.initial "") (Or.inl rfl)).1⟩


/-! ## Lifecycle of the charts -/

/-- C5: in every page reached from the initial one by a run of `updateCharts`
calls, three charts have been constructed if `stressChart` is set and none
otherwise; a call with a non-empty payload made while `stressChart` is unset
constructs exactly three charts, one per canvas, three distinct objects;
once `stressChart` is set, a call with any input constructs nothing and leaves
each of the three handles set and on the same object, and a call with a
non-empty payload redraws the three and leaves in them the sequences derived
from that payload. -/
theorem chart_lifecycle (fmt : JSVal → String) (text : String) (ds : List JSVal)
    (data : JSVal) (s : Page) (hs : s = run fmt ds (Page.initial text)) :
    (constructions s = if s.stressChart.isSome = true then 3 else 0) ∧
    (s.stressChart = none → isPayload data = true →
      constructions (rendered fmt data s) = 3 ∧
      ∃ c1 c2 c3,
        (rendered fmt data s).stressChart = some c1 ∧
        (rendered fmt data s).tempChart = some c2 ∧
        (rendered fmt data s).hrChart = some c3 ∧
        c1.ctx = .stressCtx ∧ c2.ctx = .tempCtx ∧ c3.ctx = .hrCtx ∧
        c1.oid ≠ c2.oid ∧ c2.oid ≠ c3.oid ∧ c1.oid ≠ c3.oid) ∧
    (s.stressChart ≠ none →
      constructions (rendered fmt data s) = constructions s ∧
      ident (rendered fmt data s).stressChart = ident s.stressChart ∧
      ident (rendered fmt data s).tempChart = ident s.tempChart ∧
      ident (rendered fmt data s).hrChart = ident s.hrChart ∧
      (rendered fmt data s).stressChart ≠ none ∧
      (rendered fmt data s).tempChart ≠ none ∧
      (rendered fmt data s).hrChart ≠ none ∧
      (isPayload data = true →
        redraws (rendered fmt data s) = redraws s + 3 ∧
        ∀ xs, data = .arr xs →
          contents (rendered fmt data s).stressChart
            = some (xs.map (fun d => fmt (prop "time" d)), xs.map (prop "stressed")) ∧
          contents (rendered fmt data s).tempChart
            = some (xs.map (fun d => fmt (prop "time" d)), xs.map (prop "temp")) ∧
          contents (rendered fmt data s).hrChart
            = some (xs.map (fun d => fmt (prop "time" d)), xs.map (prop "hr")))) := by
  have hcoh : coherent s := hs ▸ run_coherent fmt ds _ (initial_coherent text)
  have hcnt : countsMatch s := hs ▸ run_countsMatch fmt ds _ rfl
  refine ⟨hcnt, ?_, ?_⟩
  · intro hnone hp
    obtain ⟨xs, hv, hne, hrows⟩ := isPayload_elim data hp
    subst hv
    obtain ⟨f1, _, _, _, f5, _⟩ :=
      setIndicator_frame (.arr xs) (seriesOf fmt xs) (s.emit .enterUpdateCharts)
    have hn : (setIndicator (.arr xs) (seriesOf fmt xs) (s.emit .enterUpdateCharts)).stressChart
        = none := by rw [f1]; simpa [Page.emit] using hnone
    obtain ⟨_, ⟨c1, c2, c3, e1, e2, e3, x1, x2, x3, o1, o2, o3, _⟩, k3, _⟩ :=
      createOrUpdate_create (seriesOf fmt xs) _ hn
    have h0 : constructions s = 0 := by
      have := hcnt
      rw [countsMatch, hnone] at this
      simpa using this
    rw [rendered, updateCharts_payload fmt xs s hne hrows]
    refine ⟨?_, c1, c2, c3, e1, e2, e3, x1, x2, x3, ?_, ?_, ?_⟩
    · rw [k3, f5]; simp [constructions_emit, h0]
    · omega
    · omega
    · omega
  · intro hsome
    obtain ⟨sc, hsc⟩ := Option.ne_none_iff_exists'.1 hsome
    obtain ⟨k1, k2, k3, k4⟩ := updateCharts_keeps_handles fmt data s sc hsc
    have hall : s.tempChart ≠ none ∧ s.hrChart ≠ none := by
      obtain ⟨a, b⟩ := hcoh
      rw [hsc] at a
      have hb : s.tempChart.isSome = true := by rw [← a]; rfl
      have hc : s.hrChart.isSome = true := by rw [← b]; exact hb
      exact ⟨Option.isSome_iff_ne_none.1 hb, Option.isSome_iff_ne_none.1 hc⟩
    have keep : ∀ a b : Option Chart, ident a = ident b → b ≠ none → a ≠ none := by
      intro a b hab hb ha
      subst ha
      cases b with
      | none => exact hb rfl
      | some c => simp [ident] at hab
    refine ⟨k4, k1, k2, k3, keep _ _ k1 hsome, keep _ _ k2 hall.1, keep _ _ k3 hall.2, ?_⟩
    intro hp
    obtain ⟨xs, hv, hne, hrows⟩ := isPayload_elim data hp
    subst hv
    obtain ⟨f1, f2, f3, _, _, f6, _⟩ :=
      setIndicator_frame (.arr xs) (seriesOf fmt xs) (s.emit .enterUpdateCharts)
    have hc : coherent (setIndicator (.arr xs) (seriesOf fmt xs) (s.emit .enterUpdateCharts)) :=
      (setIndicator_coherent _ _ _).2 ((emit_coherent s _).2 hcoh)
    have hi : (setIndicator (.arr xs) (seriesOf fmt xs) (s.emit .enterUpdateCharts)).stressChart.isSome
        = true := by rw [f1]; simp [Page.emit, hsc]
    constructor
    · rw [rendered, updateCharts_payload fmt xs s hne hrows,
        createOrUpdate_redraws _ _ hc hi, f6]
      simp [redraws, Page.emit, List.filter_append]
    · intro ys hy
      cases hy
      rw [rendered, updateCharts_payload fmt xs s hne hrows]
      exact (createOrUpdate_coherent _ _ hc).2

/-- C5, on the initial page and the worked example as first payload. -/
theorem chart_lifecycle_witness :
    constructions (rendered plainTime (.arr exampleRows) (Page.initial "")) = 3 ∧
    ∃ c1 c2 c3,
      (rendered plainTime (.arr exampleRows) (Page.initial "")).stressChart = some c1 ∧
      (rendered plainTime (.arr exampleRows) (Page.initial "")).tempChart = some c2 ∧
      (rendered plainTime (.arr exampleRows) (Page.initial "")).hrChart = some c3 ∧
      c1.ctx = .stressCtx ∧ c2.ctx = .tempCtx ∧ c3.ctx = .hrCtx ∧
      c1.oid ≠ c2.oid ∧ c2.oid ≠ c3.oid ∧ c1.oid ≠ c3.oid :=
  (chart_lifecycle plainTime "" [] (.arr exampleRows) (Page.initial "") rfl).2.1 rfl rfl

/-- C10: in every page reached from the initial one by a run of `updateCharts`
calls the three handles are defined together; hence an exception escaping
`updateCharts` there is never the dereference of an undefined handle but the
one raised while reading the rows, a non-empty payload raises nothing, and
whenever the sequences were derived from data that passed the emptiness test
the index `stress.length - 1` of line 37 is within `stress`. -/
theorem handles_set_together (fmt : JSVal → String) (text : String) (ds : List JSVal)
    (s : Page) (hs : s = run fmt ds (Page.initial text)) :
    (s.stressChart ≠ none ↔ s.tempChart ≠ none) ∧
    (s.tempChart ≠ none ↔ s.hrChart ≠ none) ∧
    (∀ data e, (updateCharts fmt data s).1 = some e → deriveSeries fmt data = .error e) ∧
    (∀ data, isPayload data = true → (updateCharts fmt data s).1 = none) ∧
    (∀ data q, (!truthy data || lengthIsZero data) = false → deriveSeries fmt data = .ok q →
      q.stress.length - 1 < q.stress.length) := by
  have hcoh : coherent s := hs ▸ run_coherent fmt ds _ (initial_coherent text)
  refine ⟨?_, ?_, ?_, ?_, ?_⟩
  · rw [← Option.isSome_iff_ne_none, ← Option.isSome_iff_ne_none, hcoh.1]
  · rw [← Option.isSome_iff_ne_none, ← Option.isSome_iff_ne_none, hcoh.2]
  · intro data e he
    exact updateCharts_error_source fmt data s hcoh e he
  · intro data hp
    obtain ⟨xs, hv, hne, hrows⟩ := isPayload_elim data hp
    subst hv
    rw [updateCharts_payload fmt xs s hne hrows]
    exact (createOrUpdate_coherent _ _
      ((setIndicator_coherent _ _ _).2 ((emit_coherent s _).2 hcoh))).1
  · intro data q hg hd
    obtain ⟨xs, hv, _, hlen⟩ := deriveSeries_ok_arr fmt data q hd
    subst hv
    rw [emptyGuard_arr] at hg
    have hpos : 0 < xs.length := by
      cases xs with
      | nil => simp at hg
      | cons a rest => simp
    omega

/-- C10, on the page left by rendering the worked example. -/
theorem handles_set_together_witness :
    ((rendered plainTime (.arr exampleRows) (Page.initial "")).stressChart ≠ none ↔
      (rendered plainTime (.arr exampleRows) (Page.initial "")).tempChart ≠ none) ∧
    ((rendered plainTime (.arr exampleRows) (Page.initial "")).tempChart ≠ none ↔
      (rendered plainTime (.arr exampleRows) (Page.initial "")).hrChart ≠ none) :=
  ⟨(handles_set_together plainTime "" [.arr exampleRows]
      (rendered plainTime (.arr exampleRows) (Page.initial "")) rfl).1,
   (handles_set_together plainTime "" [.arr exampleRows]
      (rendered plainTime (.arr exampleRows) (Page.initial "")) rfl).2.1⟩


/-! ## Replacement, absorbed failures, start-up -/

/-- C6: after any run of polls from the initial page in which a successful
response carried the non-empty payload `xs` (plain rows) and every later poll
was a failure or carried an empty payload, the labels and the three series
held by the charts are the sequences derived from `xs` alone, whatever the
polls before it carried; and rendering any array `a` and then a non-empty
payload `b` leaves the same chart contents as rendering `b` alone. -/
theorem last_payload_wins (fmt : JSVal → String) (text : String)
    (pre post : List FetchOutcome) (r : Response) (xs a b : List JSVal)
    (hok : r.ok = true) (hbody : r.body = .parsed (.arr xs))
    (hne : xs ≠ []) (hrows : xs.all plainRow = true)
    (hpost : ∀ o ∈ post, failsOrEmpty o = true)
    (hbne : b ≠ []) (hbrows : b.all plainRow = true) :
    (contents (session fmt (pre ++ .responded r :: post) (Page.initial text)).2.stressChart
        = some (xs.map (fun d => fmt (prop "time" d)), xs.map (prop "stressed")) ∧
      contents (session fmt (pre ++ .responded r :: post) (Page.initial text)).2.tempChart
        = some (xs.map (fun d => fmt (prop "time" d)), xs.map (prop "temp")) ∧
      contents (session fmt (pre ++ .responded r :: post) (Page.initial text)).2.hrChart
        = some (xs.map (fun d => fmt (prop "time" d)), xs.map (prop "hr"))) ∧
    (contents (run fmt [.arr a, .arr b] (Page.initial text)).stressChart
        = contents (run fmt [.arr b] (Page.initial text)).stressChart ∧
      contents (run fmt [.arr a, .arr b] (Page.initial text)).tempChart
        = contents (run fmt [.arr b] (Page.initial text)).tempChart ∧
      contents (run fmt [.arr a, .arr b] (Page.initial text)).hrChart
        = contents (run fmt [.arr b] (Page.initial text)).hrChart) := by
  constructor
  · have hc : coherent (session fmt pre (Page.initial text)).2 :=
      session_coherent fmt pre _ (initial_coherent text)
    obtain ⟨k1, k2, k3⟩ := fetchData_payload fmt r xs _ hok hbody hne hrows hc
    obtain ⟨j1, j2, j3⟩ := session_failsOrEmpty fmt post
      (polled fmt (.responded r) (session fmt pre (Page.initial text)).2) hpost
    rw [session_snd_append, session_snd_cons, j1, j2, j3]
    exact ⟨k1, k2, k3⟩
  · have key : ∀ s, coherent s →
        contents (updateCharts fmt (.arr b) s).2.stressChart
          = some ((seriesOf fmt b).times, (seriesOf fmt b).stress) ∧
        contents (updateCharts fmt (.arr b) s).2.tempChart
          = some ((seriesOf fmt b).times, (seriesOf fmt b).temps) ∧
        contents (updateCharts fmt (.arr b) s).2.hrChart
          = some ((seriesOf fmt b).times, (seriesOf fmt b).hrs) := by
      intro s hs
      rw [updateCharts_payload fmt b s hbne hbrows]
      exact (createOrUpdate_coherent _ _
        ((setIndicator_coherent _ _ _).2 ((emit_coherent s _).2 hs))).2
    obtain ⟨p1, p2, p3⟩ := key _ (updateCharts_coherent fmt (.arr a) _ (initial_coherent text))
    obtain ⟨q1, q2, q3⟩ := key _ (initial_coherent text)
    simp only [run]
    rw [p1, p2, p3, q1, q2, q3]
    exact ⟨rfl, rfl, rfl⟩

/-- C6, on a session that renders a one-row payload, then the worked example,
then meets an empty payload, a status-500 response and a rejected request. -/
theorem last_payload_wins_witness :
    contents (session plainTime
        ([.responded ⟨200, .parsed (.arr [sample "2023-12-31T23:59:55Z" true 30 120])⟩]
          ++ .responded ⟨200, .parsed (.arr exampleRows)⟩
          :: [.responded ⟨200, .parsed (.arr [])⟩, .responded ⟨500, .invalid⟩, .rejected])
        (Page.initial "")).2.tempChart
      = some (["2024-01-01T00:00:00Z", "2024-01-01T00:00:05Z"], [.num 22.5, .num 23.1]) :=
  (last_payload_wins plainTime ""
    [.responded ⟨200, .parsed (.arr [sample "2023-12-31T23:59:55Z" true 30 120])⟩]
    [.responded ⟨200, .parsed (.arr [])⟩, .responded ⟨500, .invalid⟩, .rejected]
    ⟨200, .parsed (.arr exampleRows)⟩ exampleRows
    [sample "2023-12-31T23:59:55Z" true 30 120] exampleRows
    rfl rfl (List.cons_ne_nil _ _) rfl (by decide) (List.cons_ne_nil _ _) rfl).1.2.1

/-- C7 fails as stated: a status-200 body `0` is valid JSON of the wrong shape,
yet the poll ends with the "no data" text, not the "error" text; and the
status-200 body `[1]` is rendered, so the charts do not stay unset. -/
theorem wrong_shape_not_rejected :
    Response.ok ⟨200, .parsed (.num 0)⟩ = true ∧
    (polled plainTime (.responded ⟨200, .parsed (.num 0)⟩) (Page.initial "")).emojiBox
      = "No data ðŸ”„" ∧
    (polled plainTime (.responded ⟨200, .parsed (.num 0)⟩) (Page.initial "")).emojiBox
      ≠ "Error ðŸ”„" ∧
    (polled plainTime (.responded ⟨200, .parsed (.arr [.num 1])⟩) (Page.initial "")).emojiBox
      = "ðŸ˜Š" ∧
    contents (polled plainTime (.responded ⟨200, .parsed (.arr [.num 1])⟩)
        (Page.initial "")).stressChart
      = some (["Invalid Date"], [.undefined]) :=
  ⟨rfl, rfl, by decide, rfl, rfl⟩

theorem fetchBody_unreadable (fmt : JSVal → String) (r : Response) (v : JSVal) (s : Page)
    (hok : r.ok = true) (hb : r.body = .parsed v) (hu : unreadableBody v = true) :
    ∃ e, (fetchBody fmt (.responded r) s).1 = some e := by
  cases hl : getProp v "length" with
  | error e => exact ⟨e, by simp [fetchBody, hok, hb, hl]⟩
  | ok len =>
    cases ht : toPrimitiveThrows len with
    | true => exact ⟨conversionError, by simp [fetchBody, hok, hb, hl, ht]⟩
    | false =>
      have hg : (!truthy v || lengthIsZero v) = false := by
        cases v with
        | arr xs =>
          cases xs with
          | nil => simp [unreadableBody] at hu
          | cons a rest => simp [emptyGuard_arr]
        | null => simp [getProp] at hl
        | undefined => simp [getProp] at hl
        | _ => simpa [unreadableBody] using hu
      obtain ⟨e, he⟩ := deriveSeries_error_of_unreadable fmt v hu
      exact ⟨e, by simp [fetchBody, hok, hb, hl, ht, updateCharts, hg, he]⟩

/-- C7, amended: a poll whose response has a success status and whose body is
not valid JSON, or parses to `null`, to a truthy value that is not an array
and whose `length` is not `0`, or to an array with an element that is `null`
or whose `time` cannot be converted to a primitive value, is caught: the
returned promise fulfils, the indicator ends as the "error" text and the
three handles, their labels and their series are as before. -/
theorem fetchData_unreadable_body (fmt : JSVal → String) (r : Response) (s : Page)
    (hok : r.ok = true)
    (hbody : r.body = .invalid ∨ ∃ v, r.body = .parsed v ∧ unreadableBody v = true) :
    (fetchData fmt (.responded r) s).1 = none ∧
    (polled fmt (.responded r) s).emojiBox = "Error ðŸ”„" ∧
    (polled fmt (.responded r) s).stressChart = s.stressChart ∧
    (polled fmt (.responded r) s).tempChart = s.tempChart ∧
    (polled fmt (.responded r) s).hrChart = s.hrChart ∧
    constructions (polled fmt (.responded r) s) = constructions s ∧
    redraws (polled fmt (.responded r) s) = redraws s := by
  have hfe : failsOrEmpty (.responded r) = true := by
    rcases hbody with hb | ⟨v, hb, hu⟩
    · simp [failsOrEmpty, hb]
    · simp [failsOrEmpty, hb, hu]
  obtain ⟨k1, k2, k3, k4, k5⟩ := fetchData_failsOrEmpty fmt (.responded r) s hfe
  refine ⟨fetchData_fst fmt _ s, ?_, k1, k2, k3, k4, k5⟩
  have hthrow : ∃ e, (fetchBody fmt (.responded r) s).1 = some e := by
    rcases hbody with hb | ⟨v, hb, hu⟩
    · exact ⟨.syntaxError, by simp [fetchBody, hok, hb]⟩
    · exact fetchBody_unreadable fmt r v s hok hb hu
  obtain ⟨e, he⟩ := hthrow
  cases hf : fetchBody fmt (.responded r) s with
  | mk res s1 =>
    rw [hf] at he
    simp only at he
    subst he
    rw [polled, polled_caught fmt _ s s1 e hf]
    rfl

/-- C7 amended, on a status-200 body whose only row has a `time` that cannot be
converted, and on the body `[null]`, after the worked example was rendered. -/
theorem fetchData_unreadable_body_witness :
    (polled plainTime
      (.responded ⟨200, .parsed (.arr [.obj [("time", .obj [("toString", .null)]),
        ("stressed", .bool true), ("temp", .num 1), ("hr", .num 2)]])⟩)
      (rendered plainTime (.arr exampleRows) (Page.initial ""))).emojiBox = "Error ðŸ”„" ∧
    (polled plainTime (.responded ⟨200, .parsed (.arr [.null])⟩)
      (rendered plainTime (.arr exampleRows) (Page.initial ""))).tempChart
      = (rendered plainTime (.arr exampleRows) (Page.initial "")).tempChart :=
  ⟨(fetchData_unreadable_body plainTime
      ⟨200, .parsed (.arr [.obj [("time", .obj [("toString", .null)]),
        ("stressed", .bool true), ("temp", .num 1), ("hr", .num 2)]])⟩
      (rendered plainTime (.arr exampleRows) (Page.initial "")) rfl
      (Or.inr ⟨_, rfl, rfl⟩)).2.1,
   (fetchData_unreadable_body plainTime ⟨200, .parsed (.arr [.null])⟩
      (rendered plainTime (.arr exampleRows) (Page.initial "")) rfl
      (Or.inr ⟨_, rfl, rfl⟩)).2.2.2.1⟩

/-- C8: whatever the outcome of the request and whatever the page, including an
exception raised inside `updateCharts`, the promise returned by `fetchData`
fulfils; so a run of polls leaves no unhandled rejection, and every one of
its polls is started. -/
theorem fetchData_absorbs_failures (fmt : JSVal → String) (out : FetchOutcome)
    (outs : List FetchOutcome) (s : Page) :
    (fetchData fmt out s).1 = none ∧
    (session fmt outs s).1 = [] ∧
    pollsStarted (session fmt outs s).2 = pollsStarted s + outs.length :=
  ⟨fetchData_fst fmt out s, session_fst fmt outs s, session_pollsStarted fmt outs s⟩

/-- C9 fails as stated: start-up registers no 30-second timer for `fetchData`. -/
theorem no_thirty_second_timer :
    ¬ (30000 ∈ timerPeriods .fetchData startup ∧ 5000 ∈ timerPeriods .fetchData startup) := by
  decide

/-- C9, amended: start-up calls `fetchData` exactly once directly and
registers exactly one interval timer for it, with a period of 5000 ms. -/
theorem startup_schedule :
    immediateCalls .fetchData startup = 1 ∧ timerPeriods .fetchData startup = [5000] := by
  decide

end StressDashboard
